import Mathlib

/-!
Verification of the bounded-concurrency task execution engine
(`Task3/main.py`): Task lifecycle state machine, observer notification,
task factory, and scheduler.

The embedding is a shallow one:

* `Status` mirrors the four string statuses `"Pending"`, `"Running"`,
  `"Completed"`, `"Failed"`.
* `Task` mirrors the Python `Task` base class; observers are represented
  by identifiers (`Nat`), since the only observer state that matters to
  the claims is identity and invocation order.  The three concrete
  subclasses (`EmailTask`, `DataBackupTask`, `ReportGenerationTask`)
  differ only in their simulated sleep duration and their printed
  completion message; neither affects statuses or notifications, so they
  are represented by a `TaskKind` tag and one shared `run` body, exactly
  as the three textually identical Python `run` methods.
* Effects are made explicit through `Env`: `work_faults` says whether the
  simulated work step (`time.sleep` / `print` inside the `try` block)
  raises, and `obs_faults o old new` says whether observer `o`'s `update`
  call raises when notified of the transition `old → new`.  Exception
  propagation is tracked by explicit booleans (`true` = the Python call
  raised / the exception escaped).
-/

namespace Task3

/-- The four lifecycle statuses a `Task` can hold (stored as strings in
the Python source; initial value `"Pending"`). -/
inductive Status where
  | Pending
  | Running
  | Completed
  | Failed
deriving DecidableEq, Repr

/-- Tag distinguishing the three concrete `Task` subclasses selected by
the factory: `EmailTask`, `DataBackupTask`, `ReportGenerationTask`. -/
inductive TaskKind where
  | email
  | backup
  | report
deriving DecidableEq, Repr

/-- The `Task` base class state: `task_id`, `name`, `status`,
`created_at` and the private `_observers` list.  Observers are
identifiers; the list order is attachment order. -/
structure Task where
  kind : TaskKind
  task_id : Int
  name : String
  status : Status
  created_at : Nat
  observers : List Nat
deriving DecidableEq, Repr

/-- `Task.__init__(task_id, name)`: status starts at `"Pending"`, the
creation timestamp is captured, and the observer list starts empty. -/
def Task.create (kind : TaskKind) (task_id : Int) (name : String)
    (now : Nat) : Task :=
  { kind := kind, task_id := task_id, name := name, status := .Pending,
    created_at := now, observers := [] }

/-- `Task.attach(observer)`: appends the observer to `_observers`. -/
def Task.attach (t : Task) (o : Nat) : Task :=
  { t with observers := t.observers ++ [o] }

/-- One call `obs.update(self, old_status, new_status)` made by
`Task.notify`: which observer was invoked, the task object passed as
`self` (whose `status` field has already been overwritten), and the two
status arguments. -/
structure UpdateCall where
  observer : Nat
  task : Task
  old_status : Status
  new_status : Status
deriving DecidableEq, Repr

/-- Fault behaviour of the observers: `faults o old new = true` means
observer `o`'s `update` raises when invoked for the transition
`old → new`. -/
def ObsFaults : Type := Nat → Status → Status → Bool

/-- The loop body of `Task.notify`: invoke each observer of the list in
order.  Returns the calls actually made and `true` when no call raised;
a raising observer is still invoked (its call is recorded) but the loop
is aborted there, so later observers receive no call and the exception
propagates (`false`). -/
def notifyList (t : Task) (obs : List Nat) (old new : Status)
    (faults : ObsFaults) : List UpdateCall × Bool :=
  match obs with
  | [] => ([], true)
  | o :: rest =>
    if faults o old new then ([⟨o, t, old, new⟩], false)
    else
      let r := notifyList t rest old new faults
      (⟨o, t, old, new⟩ :: r.1, r.2)

/-- `Task.notify(old_status, new_status)`: calls `obs.update(self, old,
new)` for each attached observer in attachment order. -/
def Task.notify (t : Task) (old new : Status) (faults : ObsFaults) :
    List UpdateCall × Bool :=
  notifyList t t.observers old new faults

/-- `Task.set_status(new_status)`: records the old status, overwrites
`self.status`, then notifies.  Returns the mutated task, the update
calls made, and `true` when no observer raised.  Note the field is
overwritten before notification, so it is updated even when an observer
raises. -/
def Task.set_status (t : Task) (new : Status) (faults : ObsFaults) :
    Task × List UpdateCall × Bool :=
  let t' := { t with status := new }
  let r := Task.notify t' t.status new faults
  (t', r.1, r.2)

/-- Environment of one `run()` execution: whether the simulated work
step (`time.sleep` / completion `print` inside the `try` block) raises,
and which observer calls raise. -/
structure Env where
  work_faults : Bool
  obs_faults : ObsFaults

/-- Observable outcome of one `run()` execution: the final task state,
the sequence of values assigned to the `status` field (in order), the
update calls made (in order), and whether an exception escaped
`run()`. -/
structure RunResult where
  task : Task
  trace : List Status
  calls : List UpdateCall
  raised : Bool
deriving Repr

/-- The shared `run` body of `EmailTask`, `DataBackupTask` and
`ReportGenerationTask` (their Python bodies are identical up to sleep
duration and printed message):

    try:
        self.set_status("Running")
        time.sleep(d)          # simulated work; may raise
        print(...)             # completion message; may raise
        self.set_status("Completed")
    except Exception:
        self.set_status("Failed")

Faults are possible at three points: an observer raising inside
`set_status("Running")`, the work step raising, and an observer raising
inside `set_status("Completed")`; each lands in the `except` handler,
which runs `set_status("Failed")` — and an observer raising there
escapes `run()` (there is no enclosing handler). -/
def Task.runBody (t : Task) (env : Env) : RunResult :=
  let r1 := t.set_status .Running env.obs_faults
  if r1.2.2 then
    if env.work_faults then
      let r2 := r1.1.set_status .Failed env.obs_faults
      ⟨r2.1, [.Running, .Failed], r1.2.1 ++ r2.2.1, !r2.2.2⟩
    else
      let r2 := r1.1.set_status .Completed env.obs_faults
      if r2.2.2 then
        ⟨r2.1, [.Running, .Completed], r1.2.1 ++ r2.2.1, false⟩
      else
        let r3 := r2.1.set_status .Failed env.obs_faults
        ⟨r3.1, [.Running, .Completed, .Failed],
          r1.2.1 ++ r2.2.1 ++ r3.2.1, !r3.2.2⟩
  else
    let r2 := r1.1.set_status .Failed env.obs_faults
    ⟨r2.1, [.Running, .Failed], r1.2.1 ++ r2.2.1, !r2.2.2⟩

/-- Polymorphic `run()`: dispatches on the concrete subclass; all three
subclasses use the same body (see `Task.runBody`). -/
def Task.run (t : Task) (env : Env) : RunResult :=
  match t.kind with
  | .email => t.runBody env
  | .backup => t.runBody env
  | .report => t.runBody env

/-- The sequence of values the `status` field passes through during one
execution of `run()`, starting from the status held when `run` is
entered. -/
def Task.statusTrace (t : Task) (env : Env) : List Status :=
  t.status :: (t.run env).trace

/-- The task description record passed to `TaskFactory.create_task` (a
JSON object / Python dict).  Each of the three keys the factory reads
may be present or absent; an absent key makes the corresponding `dict`
subscript raise `KeyError`. -/
structure TaskJson where
  type? : Option String
  task_id? : Option Int
  name? : Option String
deriving DecidableEq, Repr

/-- The ways `TaskFactory.create_task` can fail: a `KeyError` from a
missing key (carrying the key), or the `ValueError` raised for a
discriminant outside the closed set (carrying the offending
discriminant in its message). -/
inductive CreateError where
  | keyError (key : String)
  | unknownTaskType (task_type : String)
deriving DecidableEq, Repr

/-- `TaskFactory.create_task(task_json)`: reads `task_json["type"]`,
`task_json["task_id"]`, `task_json["name"]` in that order (each raising
`KeyError` if absent), then matches the discriminant against `"email"`,
`"backup"`, `"report"`, constructing the corresponding subclass with
`(task_id, name)`; any other discriminant raises the unknown-task-type
`ValueError` carrying the discriminant.  `now` stands for
`datetime.now()` read in `Task.__init__`. -/
def TaskFactory.create_task (task_json : TaskJson) (now : Nat) :
    Except CreateError Task :=
  match task_json.type? with
  | none => .error (.keyError "type")
  | some task_type =>
    match task_json.task_id? with
    | none => .error (.keyError "task_id")
    | some task_id =>
      match task_json.name? with
      | none => .error (.keyError "name")
      | some name =>
        if task_type = "email" then
          .ok (Task.create .email task_id name now)
        else if task_type = "backup" then
          .ok (Task.create .backup task_id name now)
        else if task_type = "report" then
          .ok (Task.create .report task_id name now)
        else
          .error (.unknownTaskType task_type)

/-- Whether a factory result is a `KeyError` failure. -/
def isKeyError (r : Except CreateError Task) : Bool :=
  match r with
  | .error (.keyError _) => true
  | _ => false

/-- `TaskScheduler` state: the task list and the single shared
`TaskLogger` instance created in `__init__` (represented by its
observer identifier). -/
structure TaskScheduler where
  tasks : List Task
  logger : Nat
deriving DecidableEq, Repr

/-- `TaskScheduler.__init__()`: empty task list, one fresh logger. -/
def TaskScheduler.init (logger : Nat) : TaskScheduler :=
  { tasks := [], logger := logger }

/-- `TaskScheduler.add_task(task)`: first `task.attach(self.logger)`,
then `self.tasks.append(task)`. -/
def TaskScheduler.add_task (s : TaskScheduler) (t : Task) :
    TaskScheduler :=
  { s with tasks := s.tasks ++ [t.attach s.logger] }

/-- Execution of every submitted task, in submission order, each under
its own environment (`env i` is the environment of the `i`-th task).
This is the sequential model of the pool's submit-all/join-all: thread
interleaving is irrelevant to the claims settled here because each task
touches only its own state. -/
def runTasks (ts : List Task) (env : Nat → Env) : List RunResult :=
  match ts with
  | [] => []
  | t :: rest => t.run (env 0) :: runTasks rest (fun i => env (i + 1))

/-- `TaskScheduler.run_all()`: submits every task's `run` to the pool
and waits on every future (`f.result()` for each, in order).  Returns
the run results (one per task) and whether an exception escaped
`run_all` — `f.result()` re-raises an exception that escaped the
corresponding `run`, so `run_all` raises exactly when some task's `run`
raised. -/
def TaskScheduler.run_all (s : TaskScheduler) (env : Nat → Env) :
    List RunResult × Bool :=
  let rs := runTasks s.tasks env
  (rs, rs.any (fun r => r.raised))

/-- A concrete scheduler holding two factory-style tasks (the first two
records of the demo input), used to evaluate `run_all` on an explicit
instance. -/
def demoScheduler : TaskScheduler :=
  ((TaskScheduler.init 0).add_task
      (Task.create .email 1 "Send Welcome Email" 0)).add_task
    (Task.create .backup 2 "Daily DB Backup" 0)

/-- A concrete environment in which the first task's work step raises
(so that task is marked `Failed` inside its own `run`) and no observer
ever raises. -/
def demoEnv : Nat → Env := fun i => ⟨i == 0, fun _ _ _ => false⟩

/-! ### Helper lemmas -/

/-- When no observer raises on the transition `old → new`, the notify
loop calls every observer of the list, in list order, exactly once,
with the arguments `(t, old, new)`, and no exception propagates. -/
theorem notifyList_of_no_faults (t : Task) (obs : List Nat)
    (old new : Status) (faults : ObsFaults)
    (h : ∀ o, faults o old new = false) :
    notifyList t obs old new faults =
      (obs.map fun o => ⟨o, t, old, new⟩, true) := by
  induction obs with
  | nil => rfl
  | cons o rest ih => simp [notifyList, h, ih]

/-- When no observer raises on the transition `t.status → new`,
`set_status` overwrites the field, calls every attached observer once
in attachment order with `(self, old, new)`, and returns normally. -/
theorem Task.set_status_of_no_faults (t : Task) (new : Status)
    (faults : ObsFaults) (h : ∀ o, faults o t.status new = false) :
    t.set_status new faults =
      ({ t with status := new },
       t.observers.map fun o => ⟨o, { t with status := new }, t.status, new⟩,
       true) := by
  simp [Task.set_status, Task.notify, notifyList_of_no_faults _ _ _ _ _ h]

/-- All three subclasses share the same `run` body. -/
theorem Task.run_eq_runBody (t : Task) (env : Env) :
    t.run env = t.runBody env := by
  cases h : t.kind <;> simp [Task.run, h]

/-- The status field an execution of `set_status` leaves behind is the
requested one, whether or not an observer raises. -/
theorem Task.set_status_fst_status (t : Task) (new : Status)
    (faults : ObsFaults) : (t.set_status new faults).1.status = new := rfl

/-! ### Claim theorems -/

/-- C3: for every call `set_status(new_status)` in which no observer
callback raises, the prior status is recorded, the `status` field is
overwritten with the new status, and every observer currently in the
observer list is invoked exactly once, in attachment order, with
arguments `(self, old_status, new_status)` — where `self` is the task
with the already-overwritten field. -/
theorem set_status_overwrites_then_notifies_in_order (t : Task)
    (new : Status) (faults : ObsFaults)
    (h : ∀ o, faults o t.status new = false) :
    t.set_status new faults =
      ({ t with status := new },
       t.observers.map fun o => ⟨o, { t with status := new }, t.status, new⟩,
       true) :=
  Task.set_status_of_no_faults t new faults h

/-- Witness for C3 at a concrete task with two observers. -/
theorem set_status_overwrites_then_notifies_in_order_witness :
    Task.set_status ⟨.email, 1, "a", .Pending, 0, [7, 8]⟩ .Running
        (fun _ _ _ => false) =
      (⟨.email, 1, "a", .Running, 0, [7, 8]⟩,
       [⟨7, ⟨.email, 1, "a", .Running, 0, [7, 8]⟩, .Pending, .Running⟩,
        ⟨8, ⟨.email, 1, "a", .Running, 0, [7, 8]⟩, .Pending, .Running⟩],
       true) := by
  have h := set_status_overwrites_then_notifies_in_order
    ⟨.email, 1, "a", .Pending, 0, [7, 8]⟩ .Running (fun _ _ _ => false)
    (fun o => rfl)
  simpa using h

/-- C10: calling `set_status` with the current status still overwrites
the field (leaving the task unchanged, since the value is equal) and
notifies every attached observer exactly once with `old_status` equal
to `new_status`: there is no guard suppressing self-transitions or
validating the successor. -/
theorem set_status_self_transition_still_notifies (t : Task)
    (faults : ObsFaults) (h : ∀ o, faults o t.status t.status = false) :
    t.set_status t.status faults =
      (t, t.observers.map fun o => ⟨o, t, t.status, t.status⟩, true) :=
  Task.set_status_of_no_faults t t.status faults h

/-- Witness for C10: a Running task re-set to Running notifies its
observer with `old_status = new_status = Running`. -/
theorem set_status_self_transition_still_notifies_witness :
    Task.set_status ⟨.backup, 2, "b", .Running, 0, [4]⟩ .Running
        (fun _ _ _ => false) =
      (⟨.backup, 2, "b", .Running, 0, [4]⟩,
       [⟨4, ⟨.backup, 2, "b", .Running, 0, [4]⟩, .Running, .Running⟩],
       true) := by
  have h := set_status_self_transition_still_notifies
    ⟨.backup, 2, "b", .Running, 0, [4]⟩ (fun _ _ _ => false) (fun o => rfl)
  simpa using h

/-- C6: `add_task` appends the scheduler's shared logger to the task's
observer list and then appends the task to the end of the internal task
sequence; any observer the caller attaches afterwards lands after the
logger in the observer list. -/
theorem add_task_attaches_logger_then_appends (s : TaskScheduler)
    (t : Task) :
    s.add_task t =
      { tasks := s.tasks ++ [{ t with observers := t.observers ++ [s.logger] }],
        logger := s.logger } ∧
    ∀ o : Nat,
      Task.attach { t with observers := t.observers ++ [s.logger] } o =
        { t with observers := t.observers ++ [s.logger] ++ [o] } :=
  ⟨rfl, fun _ => rfl⟩

/-- C8: `attach` performs no de-duplication — after attaching the same
observer twice to a task it did not already observe, that observer
receives exactly two update calls on each subsequent transition (here:
any `set_status` call in which no observer raises). -/
theorem countP_observer_map (t' : Task) (obs : List Nat)
    (old new : Status) (o : Nat) :
    (obs.map fun o1 => (⟨o1, t', old, new⟩ : UpdateCall)).countP
        (fun c => c.observer == o) =
      obs.countP (fun o1 => o1 == o) := by
  induction obs with
  | nil => rfl
  | cons a rest ih => simp [List.countP_cons, ih]

theorem attach_twice_yields_two_update_calls (t : Task) (o : Nat)
    (new : Status) (faults : ObsFaults) (ho : o ∉ t.observers)
    (h : ∀ o', faults o' t.status new = false) :
    (((t.attach o).attach o).set_status new faults).2.1.countP
      (fun c => c.observer == o) = 2 := by
  have hs := Task.set_status_of_no_faults ((t.attach o).attach o) new faults h
  rw [hs, countP_observer_map]
  have hz : t.observers.countP (fun o1 => o1 == o) = 0 :=
    List.countP_eq_zero.2 (fun a ha hp => ho ((beq_iff_eq.mp hp) ▸ ha))
  simp [Task.attach, List.countP_append, hz]

/-- Witness for C8 on a fresh task and observer 5. -/
theorem attach_twice_yields_two_update_calls_witness :
    (((Task.attach (Task.attach ⟨.report, 3, "c", .Pending, 0, []⟩ 5) 5)).set_status
        .Running (fun _ _ _ => false)).2.1.countP (fun c => c.observer == 5) = 2 := by
  have h := attach_twice_yields_two_update_calls
    ⟨.report, 3, "c", .Pending, 0, []⟩ 5 .Running (fun _ _ _ => false)
    (by simp) (fun o' => rfl)
  exact h

/-- C1: in every execution of `run()` on a task whose status is
`Pending` and in which no observer callback raises, the sequence of
status values the task passes through is exactly
`[Pending, Running, Completed]` or `[Pending, Running, Failed]` — the
two outcomes corresponding to the work step succeeding or raising. -/
theorem run_status_trace_pending_running_terminal (t : Task) (env : Env)
    (hp : t.status = .Pending)
    (h : ∀ o a b, env.obs_faults o a b = false) :
    t.statusTrace env = [.Pending, .Running, .Completed] ∨
    t.statusTrace env = [.Pending, .Running, .Failed] := by
  have hs : ∀ (u : Task) (new : Status),
      u.set_status new env.obs_faults =
        ({ u with status := new },
         u.observers.map fun o => ⟨o, { u with status := new }, u.status, new⟩,
         true) :=
    fun u new =>
      Task.set_status_of_no_faults u new env.obs_faults (fun o => h o u.status new)
  cases hw : env.work_faults with
  | true =>
    right
    simp [Task.statusTrace, Task.run_eq_runBody, Task.runBody, hs, hw, hp]
  | false =>
    left
    simp [Task.statusTrace, Task.run_eq_runBody, Task.runBody, hs, hw, hp]

/-- Witness for C1: a fresh email task with one observer and a
succeeding work step passes through `[Pending, Running, Completed]`. -/
theorem run_status_trace_pending_running_terminal_witness :
    Task.statusTrace ⟨.email, 1, "a", .Pending, 0, [0]⟩
        ⟨false, fun _ _ _ => false⟩ = [.Pending, .Running, .Completed] ∨
    Task.statusTrace ⟨.email, 1, "a", .Pending, 0, [0]⟩
        ⟨false, fun _ _ _ => false⟩ = [.Pending, .Running, .Failed] :=
  run_status_trace_pending_running_terminal
    ⟨.email, 1, "a", .Pending, 0, [0]⟩ ⟨false, fun _ _ _ => false⟩
    rfl (fun _ _ _ => rfl)

/-- C2 counterexample: on a task with one observer whose `update` raises
on every call, `run()` lets an exception escape to its caller — the
observer raises inside `set_status("Running")`, the `except` handler
calls `set_status("Failed")`, the observer raises again, and that
exception has no enclosing handler inside `run`. -/
theorem run_raises_when_observer_faults_on_failed :
    (Task.run ⟨.email, 1, "a", .Pending, 0, [0]⟩
      ⟨false, fun _ _ _ => true⟩).raised = true := rfl

/-- C2 amended: any fault raised inside `run`'s `try` block (the work
step, or an observer raising during the `Running`/`Completed`
notifications) is caught and converted into a `Failed` transition, and
no exception escapes `run()` provided no observer raises while being
notified of a transition to `Failed`; in particular a work-step fault
always leaves the task `Failed`. -/
theorem run_raised_only_if_failed_notify_faults (t : Task) (env : Env)
    (h : ∀ o a, env.obs_faults o a .Failed = false) :
    (t.run env).raised = false ∧
    (env.work_faults = true → (t.run env).task.status = .Failed) := by
  have hFail : ∀ u : Task,
      (u.set_status .Failed env.obs_faults).2.2 = true := by
    intro u
    rw [Task.set_status_of_no_faults u .Failed env.obs_faults
      (fun o => h o u.status)]
  rw [Task.run_eq_runBody]
  cases h1 : (t.set_status .Running env.obs_faults).2.2 <;>
    cases hw : env.work_faults <;>
    cases h2 : ((t.set_status .Running env.obs_faults).1.set_status
      .Completed env.obs_faults).2.2 <;>
    simp [Task.runBody, h1, hw, h2, hFail, Task.set_status_fst_status]

/-- Witness for C2 amended: with a work-step fault and an observer that
raises only on `Completed` notifications, `run()` raises nothing and
leaves the task `Failed`. -/
theorem run_raised_only_if_failed_notify_faults_witness :
    (Task.run ⟨.email, 1, "a", .Pending, 0, [0]⟩
      ⟨true, fun _ _ n => n == .Completed⟩).raised = false ∧
    (Task.run ⟨.email, 1, "a", .Pending, 0, [0]⟩
      ⟨true, fun _ _ n => n == .Completed⟩).task.status = .Failed := by
  have h := run_raised_only_if_failed_notify_faults
    ⟨.email, 1, "a", .Pending, 0, [0]⟩ ⟨true, fun _ _ n => n == .Completed⟩
    (fun o a => rfl)
  exact ⟨h.1, h.2 rfl⟩

/-- C4: on a description record containing all of `type`, `task_id` and
`name`, `create_task` returns the variant selected by the discriminant
(`email` / `backup` / `report`), constructed from `(task_id, name)`;
any other discriminant yields the unknown-task-type error carrying the
offending discriminant, and no task is constructed. -/
theorem create_task_matches_closed_discriminant_set (j : TaskJson)
    (now : Nat) (ty : String) (id : Int) (nm : String)
    (ht : j.type? = some ty) (hi : j.task_id? = some id)
    (hn : j.name? = some nm) :
    (ty = "email" →
      TaskFactory.create_task j now = .ok (Task.create .email id nm now)) ∧
    (ty = "backup" →
      TaskFactory.create_task j now = .ok (Task.create .backup id nm now)) ∧
    (ty = "report" →
      TaskFactory.create_task j now = .ok (Task.create .report id nm now)) ∧
    (ty ≠ "email" → ty ≠ "backup" → ty ≠ "report" →
      TaskFactory.create_task j now = .error (.unknownTaskType ty)) := by
  refine ⟨?_, ?_, ?_, ?_⟩
  · intro he
    subst he
    simp [TaskFactory.create_task, ht, hi, hn]
  · intro he
    subst he
    simp [TaskFactory.create_task, ht, hi, hn]
  · intro he
    subst he
    simp [TaskFactory.create_task, ht, hi, hn]
  · intro h1 h2 h3
    simp [TaskFactory.create_task, ht, hi, hn, h1, h2, h3]

/-- Witness for C4: the discriminant `"bogus"` is rejected with the
unknown-task-type error carrying `"bogus"`. -/
theorem create_task_matches_closed_discriminant_set_witness :
    TaskFactory.create_task ⟨some "bogus", some 2, some "y"⟩ 0 =
      .error (.unknownTaskType "bogus") := by
  have h := create_task_matches_closed_discriminant_set
    ⟨some "bogus", some 2, some "y"⟩ 0 "bogus" 2 "y" rfl rfl rfl
  exact h.2.2.2 (by decide) (by decide) (by decide)

/-- C9: `create_task` reads `type`, `task_id` and `name` before matching
the discriminant, so a record missing any of the three keys fails with a
`KeyError` (not the unknown-task-type error), even when `type` is also
absent or outside the closed set. -/
theorem create_task_missing_key_is_key_error (j : TaskJson) (now : Nat)
    (h : j.type? = none ∨ j.task_id? = none ∨ j.name? = none) :
    isKeyError (TaskFactory.create_task j now) = true := by
  obtain ⟨a, b, c⟩ := j
  cases a <;> cases b <;> cases c <;>
    simp_all [TaskFactory.create_task, isKeyError]

/-- Witness for C9: a record with the out-of-set discriminant `"bogus"`
but a missing `task_id` fails with a `KeyError`, not with the
unknown-task-type error. -/
theorem create_task_missing_key_is_key_error_witness :
    isKeyError (TaskFactory.create_task ⟨some "bogus", none, some "y"⟩ 0) =
      true :=
  create_task_missing_key_is_key_error ⟨some "bogus", none, some "y"⟩ 0
    (Or.inr (Or.inl rfl))

/-- Every execution of `run()` ends with the task in a terminal status,
whatever faults occur: each control path of the body finishes with an
assignment of `Completed` or `Failed`. -/
theorem Task.run_terminal (t : Task) (env : Env) :
    (t.run env).task.status = .Completed ∨
    (t.run env).task.status = .Failed := by
  rw [Task.run_eq_runBody]
  cases h1 : (t.set_status .Running env.obs_faults).2.2 <;>
    cases hw : env.work_faults <;>
    cases h2 : ((t.set_status .Running env.obs_faults).1.set_status
      .Completed env.obs_faults).2.2 <;>
    simp [Task.runBody, h1, hw, h2, Task.set_status_fst_status]

/-- When no observer callback raises, no exception escapes `run()`. -/
theorem Task.run_raised_false_of_no_obs_faults (t : Task) (env : Env)
    (h : ∀ o a b, env.obs_faults o a b = false) :
    (t.run env).raised = false := by
  have hs : ∀ (u : Task) (new : Status),
      u.set_status new env.obs_faults =
        ({ u with status := new },
         u.observers.map fun o => ⟨o, { u with status := new }, u.status, new⟩,
         true) :=
    fun u new =>
      Task.set_status_of_no_faults u new env.obs_faults (fun o => h o u.status new)
  cases hw : env.work_faults <;>
    simp [Task.run_eq_runBody, Task.runBody, hs, hw]

/-- `runTasks` produces one result per submitted task. -/
theorem runTasks_length (ts : List Task) (env : Nat → Env) :
    (runTasks ts env).length = ts.length := by
  induction ts generalizing env with
  | nil => rfl
  | cons t rest ih => simp [runTasks, ih]

/-- Every result of `runTasks` carries a terminal task. -/
theorem runTasks_mem_terminal (ts : List Task) (env : Nat → Env)
    (r : RunResult) (hr : r ∈ runTasks ts env) :
    r.task.status = .Completed ∨ r.task.status = .Failed := by
  induction ts generalizing env with
  | nil => cases hr
  | cons t rest ih =>
    simp only [runTasks, List.mem_cons] at hr
    rcases hr with h | h
    · exact h ▸ Task.run_terminal t (env 0)
    · exact ih _ h

/-- When no observer of any task raises, no `run` raises and hence no
`f.result()` call re-raises. -/
theorem runTasks_no_raise (ts : List Task) (env : Nat → Env)
    (h : ∀ i o a b, (env i).obs_faults o a b = false) :
    (runTasks ts env).any (fun r => r.raised) = false := by
  induction ts generalizing env with
  | nil => rfl
  | cons t rest ih =>
    simp [runTasks,
      Task.run_raised_false_of_no_obs_faults t (env 0) (fun o a b => h 0 o a b),
      ih (fun i => env (i + 1)) (fun i o a b => h (i + 1) o a b)]

/-- C5: when no observer callback raises, `run_all` produces a result
for every added task, every one of those tasks ends in a terminal
status (`Completed` or `Failed`), and no exception is raised out of
`run_all` — in particular a task whose work step fails is marked
`Failed` inside its own `run` without aborting the others. -/
theorem run_all_returns_with_all_tasks_terminal (s : TaskScheduler)
    (env : Nat → Env)
    (h : ∀ i o a b, (env i).obs_faults o a b = false) :
    (s.run_all env).1.length = s.tasks.length ∧
    (∀ r ∈ (s.run_all env).1,
      r.task.status = .Completed ∨ r.task.status = .Failed) ∧
    (s.run_all env).2 = false := by
  refine ⟨runTasks_length s.tasks env, ?_, ?_⟩
  · intro r hr
    exact runTasks_mem_terminal s.tasks env r hr
  · exact runTasks_no_raise s.tasks env h

/-- Witness for C5: two scheduled tasks, the first of which faults in
its work step; `run_all` yields two results, both terminal, and raises
nothing. -/
theorem run_all_returns_with_all_tasks_terminal_witness :
    (demoScheduler.run_all demoEnv).1.length = demoScheduler.tasks.length ∧
    (∀ r ∈ (demoScheduler.run_all demoEnv).1,
      r.task.status = .Completed ∨ r.task.status = .Failed) ∧
    (demoScheduler.run_all demoEnv).2 = false :=
  run_all_returns_with_all_tasks_terminal demoScheduler demoEnv
    (fun _ _ _ _ => rfl)

end Task3
